import Mathlib

/-!
Verification of `app/components/cart/CartLineItem.tsx` and the product
detail page loader of the sanarte-hydrogen storefront.

The embedding models the cart line-item renderer (quantity cluster with
decrease / increase / removal controls and their form submissions), the
selected-options list, and the product page's two-phase loader
(`loadCriticalData` / `loadDeferredData` / `loader`).

JavaScript conventions made explicit in the model:
- `Maybe<number>` becomes `Option Int`; a `Maybe<number>` used in a
  boolean position (the ternary on `quantityAvailable`) is truthy iff it
  is present and nonzero.
- `boolean | undefined` becomes `Option Bool`; the source coerces it with
  a double negation, which maps `none` to `false`.
- a promise is modeled by its eventual settlement (fulfilled / rejected);
  thrown errors become `Except` errors.
-/

/-- JS double negation applied to a possibly-undefined boolean
(`!!isOptimistic` in the source): `undefined` and `false` give `false`. -/
def bangBang : Option Bool → Bool
  | none => false
  | some b => b

/-- Truthiness of a `Maybe<number>` in a JS boolean position:
`null` / `undefined` and `0` are falsy, every other number is truthy. -/
def numTruthy : Option Int → Bool
  | none => false
  | some n => n != 0

/-- A selected option of a variant (`{ name, value }`). -/
structure SelectedOption where
  name : String
  value : String
deriving Repr, DecidableEq

/-- The merchandise (variant) fields of a cart line used by the component. -/
structure Merchandise where
  quantityAvailable : Option Int
  selectedOptions : List SelectedOption
deriving Repr, DecidableEq

/-- A cart line as consumed by `CartLineItem`: identifier, quantity
(possibly `undefined`, checked defensively by the source), the optimistic
flag of `OptimisticCartLine`, and its merchandise. -/
structure CartLine where
  id : String
  quantity : Option Int
  isOptimistic : Option Bool
  merchandise : Merchandise
deriving Repr, DecidableEq

/-- The cart-form action tag (`CartForm.ACTIONS.*`) used by a control. -/
inductive CartAction
  | LinesUpdate
  | LinesRemove
deriving Repr, DecidableEq

/-- One entry of the `lines` input of a lines-update submission. -/
structure LineUpdateInput where
  id : String
  quantity : Int
deriving Repr, DecidableEq

/-- The `inputs` payload of a cart form. -/
inductive CartInputs
  | lines (ls : List LineUpdateInput)
  | lineIds (ids : List String)
deriving Repr, DecidableEq

/-- A cart form submission: route, action tag and inputs. -/
structure CartFormSubmission where
  route : String
  action : CartAction
  inputs : CartInputs
deriving Repr, DecidableEq

/-- An update control (decrease or increase button) as rendered:
its name, aria label, candidate-quantity value, disabled state and the
submission its form issues. -/
structure UpdateControl where
  name : String
  ariaLabel : String
  value : Int
  disabled : Bool
  submission : CartFormSubmission
deriving Repr, DecidableEq

/-- The removal control as rendered: disabled state and submission. -/
structure RemoveControl where
  disabled : Bool
  submission : CartFormSubmission
deriving Repr, DecidableEq

/-- The quantity-control cluster rendered by `CartLineQuantity`. -/
structure QuantityCluster where
  decrease : UpdateControl
  quantityText : Int
  increase : UpdateControl
  remove : RemoveControl
deriving Repr, DecidableEq

/-- `CartLineUpdateButton`: a cart form posting to `/cart` with the
`LinesUpdate` action and the given `lines` input, wrapping a button with
the given name, value and disabled state. -/
def CartLineUpdateButton (name : String) (ariaLabel : String) (value : Int)
    (disabled : Bool) (lines : List LineUpdateInput) : UpdateControl :=
  { name := name
    ariaLabel := ariaLabel
    value := value
    disabled := disabled
    submission :=
      { route := "/cart", action := CartAction.LinesUpdate,
        inputs := CartInputs.lines lines } }

/-- `CartLineRemoveButton`: a cart form posting to `/cart` with the
`LinesRemove` action and the given `lineIds` input. -/
def CartLineRemoveButton (lineIds : List String) (disabled : Bool) :
    RemoveControl :=
  { disabled := disabled
    submission :=
      { route := "/cart", action := CartAction.LinesRemove,
        inputs := CartInputs.lineIds lineIds } }

/-- `Number(Math.max(0, quantity - 1).toFixed(0))`: for an integer
quantity, rounding to zero decimals is the identity. -/
def prevQuantity (quantity : Int) : Int := max 0 (quantity - 1)

/-- `Number((quantity + 1).toFixed(0))`. -/
def nextQuantity (quantity : Int) : Int := quantity + 1

/-- `quantity <= 1 || !!isOptimistic` (with the double negation already
applied to the optimistic flag). -/
def isDecreaseDisabled (quantity : Int) (isOptimistic : Bool) : Bool :=
  decide (quantity ≤ 1) || isOptimistic

/-- `quantityAvailable ? nextQuantity > quantityAvailable : !!isOptimistic`:
the ternary tests JS truthiness, so an absent or zero `quantityAvailable`
takes the `!!isOptimistic` branch. -/
def isIncreaseDisabled (quantity : Int) (isOptimistic : Bool)
    (quantityAvailable : Option Int) : Bool :=
  if numTruthy quantityAvailable then
    match quantityAvailable with
    | some a => decide (nextQuantity quantity > a)
    | none => false
  else isOptimistic

/-- `CartLineQuantity`: renders nothing when the line is missing or its
quantity is `undefined`; otherwise renders the decrease button, the
quantity text, the increase button and the removal button. -/
def CartLineQuantity (line : Option CartLine)
    (quantityAvailable : Option Int) : Option QuantityCluster :=
  match line with
  | none => none
  | some l =>
    match l.quantity with
    | none => none
    | some quantity =>
      let isOpt := bangBang l.isOptimistic
      let prev := prevQuantity quantity
      let next := nextQuantity quantity
      some
        { decrease :=
            CartLineUpdateButton "decrease-quantity" "Decrease quantity"
              prev (isDecreaseDisabled quantity isOpt)
              [{ id := l.id, quantity := prev }]
          quantityText := quantity
          increase :=
            CartLineUpdateButton "increase-quantity" "Increase quantity"
              next (isIncreaseDisabled quantity isOpt quantityAvailable)
              [{ id := l.id, quantity := next }]
          remove := CartLineRemoveButton [l.id] isOpt }

/-- The selected-options list as rendered by `CartLineItem`: every option
whose name differs from "Title" yields one rendered entry, in order. -/
def renderedOptions (opts : List SelectedOption) : List SelectedOption :=
  opts.filter (fun o => o.name != "Title")

/-- The pieces of `CartLineItem` the claims are about: the rendered
selected-options list and the quantity cluster (the component passes
`merchandise.quantityAvailable` down to `CartLineQuantity`). -/
def CartLineItem (line : CartLine) :
    List SelectedOption × Option QuantityCluster :=
  (renderedOptions line.merchandise.selectedOptions,
   CartLineQuantity (some line) line.merchandise.quantityAvailable)

/-! ## Product detail page loader -/

/-- The product data returned by the critical query, reduced to the field
the loader inspects: `product?.id` must be truthy (a nonempty string). -/
structure ProductData where
  id : String
  title : String
  handle : String
deriving Repr, DecidableEq

/-- The shape of a fulfilled critical query: a possibly-null product and
the shop's primary domain URL. -/
structure QueryResult where
  product : Option ProductData
  shopPrimaryDomainUrl : String
deriving Repr, DecidableEq

/-- The ways the critical phase aborts the request: a thrown `Error`
(generic failure), a thrown `Response` with a status, or the propagated
rejection of the storefront query itself. -/
inductive LoaderError
  | genericError (msg : String)
  | responseError (status : Nat)
  | queryRejected (e : String)
deriving Repr, DecidableEq

/-- `loadCriticalData`'s successful payload: the product and the shop's
store domain. -/
structure CriticalPayload where
  product : ProductData
  storeDomain : String
deriving Repr, DecidableEq

/-- `!product?.id` made explicit: the product resolves to a valid
identifier iff it is present and its id is nonempty (truthy). -/
def productResolves : Option ProductData → Bool
  | none => false
  | some p => p.id != ""

/-- `!handle` made explicit: the handle route parameter is truthy iff it
is present and nonempty (JS treats the empty string as falsy). -/
def handleTruthy : Option String → Bool
  | none => false
  | some h => h != ""

/-- `loadCriticalData`: throws a generic `Error` if the handle route
parameter is falsy (absent or empty); awaits the product query
(propagating its rejection); throws a 404 `Response` if `!product?.id`;
otherwise returns the product and the shop's primary domain URL. -/
def loadCriticalData (handle : Option String)
    (query : Except String QueryResult) :
    Except LoaderError CriticalPayload :=
  if handleTruthy handle then
    match query with
    | Except.error e => Except.error (LoaderError.queryRejected e)
    | Except.ok res =>
      if productResolves res.product then
        match res.product with
        | some p => Except.ok
            { product := p, storeDomain := res.shopPrimaryDomainUrl }
        | none => Except.error (LoaderError.responseError 404)
      else Except.error (LoaderError.responseError 404)
  else Except.error
    (LoaderError.genericError "Expected product handle to be defined")

/-- The recommended-products payload of the deferred query. -/
structure RecommendedProducts where
  nodes : List ProductData
deriving Repr, DecidableEq

/-- A promise modeled by its eventual settlement. -/
inductive Settlement (α : Type)
  | fulfilled (v : α)
  | rejected (e : String)
deriving Repr, DecidableEq

/-- The promise produced by `storefront.query(...).catch(...)`: after the
catch it always fulfills; `settlement` is the value it fulfills with and
`log` the console-error entries emitted when it settles. -/
structure CaughtPromise where
  settlement : Option RecommendedProducts
  log : List String
deriving Repr, DecidableEq

/-- `loadDeferredData`'s returned record: the still-pending caught
promise under the `recommendedProducts` key. -/
structure DeferredData where
  recommendedProducts : CaughtPromise
deriving Repr, DecidableEq

/-- `loadDeferredData`: issues the recommended-products query and attaches
a catch handler that logs the rejection reason and replaces it with
`null`; returns the (un-awaited) caught promise. -/
def loadDeferredData (query : Settlement RecommendedProducts) :
    DeferredData :=
  match query with
  | Settlement.fulfilled v =>
    { recommendedProducts := { settlement := some v, log := [] } }
  | Settlement.rejected e =>
    { recommendedProducts := { settlement := none, log := [e] } }

/-- Observable events of one run of the loader, in program order. -/
inductive LoaderEvent
  | issueRecommendedQuery
  | issueProductQuery
  | awaitCritical
  | respond
deriving Repr, DecidableEq, BEq

/-- Events of `loadDeferredData(args)`: calling it immediately issues the
recommended-products query (the function is not async and not awaited). -/
def loadDeferredDataEvents : List LoaderEvent :=
  [LoaderEvent.issueRecommendedQuery]

/-- Events inside `loadCriticalData(args)`: with a handle present it
issues the product query; with the handle absent it throws before issuing
anything. -/
def loadCriticalDataEvents (handle : Option String) : List LoaderEvent :=
  match handle with
  | none => []
  | some _ => [LoaderEvent.issueProductQuery]

/-- The loader's payload handed to the renderer by `defer`:
`recommendedProducts` is still the caught promise (never awaited by the
loader), while the critical fields are plain resolved values. -/
structure LoaderPayload where
  recommendedProducts : CaughtPromise
  product : ProductData
  storeDomain : String
deriving Repr, DecidableEq

/-- `loader`: calls `loadDeferredData` first (issuing its fetch), then
awaits `loadCriticalData`, and responds with `defer` spreading both
records. Returns the outcome together with the event trace of the run. -/
def loader (deferredQuery : Settlement RecommendedProducts)
    (handle : Option String) (criticalQuery : Except String QueryResult) :
    Except LoaderError LoaderPayload × List LoaderEvent :=
  let deferredData := loadDeferredData deferredQuery
  match loadCriticalData handle criticalQuery with
  | Except.error e =>
    (Except.error e,
     loadDeferredDataEvents ++ loadCriticalDataEvents handle ++
       [LoaderEvent.awaitCritical])
  | Except.ok c =>
    (Except.ok
       { recommendedProducts := deferredData.recommendedProducts,
         product := c.product, storeDomain := c.storeDomain },
     loadDeferredDataEvents ++ loadCriticalDataEvents handle ++
       [LoaderEvent.awaitCritical, LoaderEvent.respond])

/-! ## Spec-side definition for the increase-control claim -/

/-- The increase-disabled condition exactly as claim C2 words it:
disabled iff (quantity-available is known and candidate exceeds it) or
(quantity-available is unknown and the line is optimistic). Written from
the claim, to be compared with `isIncreaseDisabled` from the source. -/
def increaseDisabledSpec (quantity : Int) (isOptimistic : Bool)
    (quantityAvailable : Option Int) : Bool :=
  match quantityAvailable with
  | some a => decide (quantity + 1 > a)
  | none => isOptimistic

/-- A concrete cart line builder used by witnesses and counterexamples. -/
def mkLine (q : Option Int) (opt : Option Bool) (qa : Option Int) :
    CartLine :=
  { id := "gid-cart-line-1", quantity := q, isOptimistic := opt,
    merchandise := { quantityAvailable := qa, selectedOptions := [] } }

/-! ## Theorems -/

/-- Unfolding of `CartLineQuantity` on a line with a defined quantity. -/
theorem CartLineQuantity_some (l : CartLine) (qa : Option Int) (q : Int)
    (hq : l.quantity = some q) :
    CartLineQuantity (some l) qa = some
      { decrease :=
          CartLineUpdateButton "decrease-quantity" "Decrease quantity"
            (prevQuantity q)
            (isDecreaseDisabled q (bangBang l.isOptimistic))
            [{ id := l.id, quantity := prevQuantity q }]
        quantityText := q
        increase :=
          CartLineUpdateButton "increase-quantity" "Increase quantity"
            (nextQuantity q)
            (isIncreaseDisabled q (bangBang l.isOptimistic) qa)
            [{ id := l.id, quantity := nextQuantity q }]
        remove := CartLineRemoveButton [l.id] (bangBang l.isOptimistic) } := by
  simp [CartLineQuantity, hq]

/-- C3: for every cart line with a defined quantity, the decrease control's
candidate quantity is `max 0 (quantity - 1)`, it is disabled exactly when
the quantity is at most 1 or the line is optimistic, and its form submits
a lines-update mutation to `/cart` setting this line to the candidate. -/
theorem c3_decrease_control (line : CartLine) (qa : Option Int) (q : Int)
    (hq : line.quantity = some q) :
    ∃ c, CartLineQuantity (some line) qa = some c ∧
      c.decrease.value = max 0 (q - 1) ∧
      (c.decrease.disabled = true ↔
        q ≤ 1 ∨ bangBang line.isOptimistic = true) ∧
      c.decrease.submission =
        { route := "/cart", action := CartAction.LinesUpdate,
          inputs := CartInputs.lines
            [{ id := line.id, quantity := max 0 (q - 1) }] } := by
  refine ⟨_, CartLineQuantity_some line qa q hq, ?_, ?_, ?_⟩
  · simp [CartLineUpdateButton, prevQuantity]
  · simp [CartLineUpdateButton, isDecreaseDisabled]
  · simp [CartLineUpdateButton, prevQuantity]

/-- C3 witness: a line with quantity 3, not optimistic. -/
theorem c3_decrease_control_witness :
    (mkLine (some 3) (some false) (some 5)).quantity = some 3 ∧
    (∃ c, CartLineQuantity (some (mkLine (some 3) (some false) (some 5)))
        (some 5) = some c ∧
      c.decrease.value = max 0 (3 - 1) ∧
      (c.decrease.disabled = true ↔ (3 : Int) ≤ 1 ∨
        bangBang (mkLine (some 3) (some false) (some 5)).isOptimistic
          = true) ∧
      c.decrease.submission =
        { route := "/cart", action := CartAction.LinesUpdate,
          inputs := CartInputs.lines
            [{ id := (mkLine (some 3) (some false) (some 5)).id,
               quantity := max 0 (3 - 1) }] }) :=
  ⟨rfl, c3_decrease_control (mkLine (some 3) (some false) (some 5))
    (some 5) 3 rfl⟩

/-- C6: for every cart line with a defined quantity, the removal control is
disabled exactly when the coerced optimistic flag is true — independent of
the quantity and of quantity-available, which are universally quantified
here — and its form submits a lines-remove mutation to `/cart` whose
target list is exactly the singleton of this line's identifier. -/
theorem c6_remove_control (line : CartLine) (qa : Option Int) (q : Int)
    (hq : line.quantity = some q) :
    ∃ c, CartLineQuantity (some line) qa = some c ∧
      c.remove.disabled = bangBang line.isOptimistic ∧
      c.remove.submission =
        { route := "/cart", action := CartAction.LinesRemove,
          inputs := CartInputs.lineIds [line.id] } := by
  refine ⟨_, CartLineQuantity_some line qa q hq, ?_, ?_⟩
  · simp [CartLineRemoveButton]
  · simp [CartLineRemoveButton]

/-- C6 witness: an optimistic line with quantity 2. -/
theorem c6_remove_control_witness :
    (mkLine (some 2) (some true) none).quantity = some 2 ∧
    (∃ c, CartLineQuantity (some (mkLine (some 2) (some true) none))
        none = some c ∧
      c.remove.disabled =
        bangBang (mkLine (some 2) (some true) none).isOptimistic ∧
      c.remove.submission =
        { route := "/cart", action := CartAction.LinesRemove,
          inputs := CartInputs.lineIds
            [(mkLine (some 2) (some true) none).id] }) :=
  ⟨rfl, c6_remove_control (mkLine (some 2) (some true) none) none 2 rfl⟩

/-- C9: when the line is missing or its quantity is undefined, the
quantity cluster renders nothing at all. -/
theorem c9_undefined_quantity_renders_nothing (line : Option CartLine)
    (qa : Option Int)
    (h : line = none ∨ ∃ l, line = some l ∧ l.quantity = none) :
    CartLineQuantity line qa = none := by
  rcases h with h | ⟨l, rfl, hq⟩
  · subst h; rfl
  · simp [CartLineQuantity, hq]

/-- C9 witness: a present line with undefined quantity. -/
theorem c9_undefined_quantity_renders_nothing_witness :
    ((some (mkLine none (some false) (some 5)) : Option CartLine) = none ∨
      ∃ l, (some (mkLine none (some false) (some 5)) : Option CartLine)
          = some l ∧ l.quantity = none) ∧
    CartLineQuantity (some (mkLine none (some false) (some 5)))
      (some 5) = none :=
  ⟨Or.inr ⟨mkLine none (some false) (some 5), rfl, rfl⟩,
   c9_undefined_quantity_renders_nothing
     (some (mkLine none (some false) (some 5))) (some 5)
     (Or.inr ⟨mkLine none (some false) (some 5), rfl, rfl⟩)⟩

/-- C10: when quantity-available is exactly 0, the increase control's
disabled state equals the coerced optimistic flag, and the whole rendered
cluster is identical to the one rendered when quantity-available is
absent. -/
theorem c10_zero_quantity_available (line : CartLine) (q : Int)
    (hq : line.quantity = some q) :
    (CartLineQuantity (some line) (some 0)).map
        (fun c => c.increase.disabled)
      = some (bangBang line.isOptimistic) ∧
    CartLineQuantity (some line) (some 0)
      = CartLineQuantity (some line) none := by
  rw [CartLineQuantity_some line (some 0) q hq,
    CartLineQuantity_some line none q hq]
  constructor
  · simp [CartLineUpdateButton, isIncreaseDisabled, numTruthy]
  · simp [isIncreaseDisabled, numTruthy]

/-- C10 witness: quantity 1, not optimistic, quantity-available 0. -/
theorem c10_zero_quantity_available_witness :
    (mkLine (some 1) (some false) (some 0)).quantity = some 1 ∧
    ((CartLineQuantity (some (mkLine (some 1) (some false) (some 0)))
        (some 0)).map (fun c => c.increase.disabled)
      = some (bangBang (mkLine (some 1) (some false) (some 0)).isOptimistic) ∧
     CartLineQuantity (some (mkLine (some 1) (some false) (some 0)))
        (some 0)
      = CartLineQuantity (some (mkLine (some 1) (some false) (some 0)))
          none) :=
  ⟨rfl, c10_zero_quantity_available
    (mkLine (some 1) (some false) (some 0)) 1 rfl⟩

/-- C7: in the rendered selected-options list of `CartLineItem`, an option
named exactly "Title" never appears, and every other option with a
non-empty value occurs in the rendered list exactly as often as in the
line's selected options (in particular, exactly once when it occurs once). -/
theorem c7_selected_options (line : CartLine) (o : SelectedOption) :
    (o.name = "Title" → o ∉ (CartLineItem line).1) ∧
    (o.name ≠ "Title" → o.value ≠ "" →
      List.count o (CartLineItem line).1
        = List.count o line.merchandise.selectedOptions) := by
  constructor
  · intro hname hmem
    rw [CartLineItem] at hmem
    simp only [renderedOptions, List.mem_filter] at hmem
    exact absurd hname (by simpa using hmem.2)
  · intro hname hval
    rw [CartLineItem]
    simp only [renderedOptions]
    exact List.count_filter (by simpa using hname)

/-- C7 witness: a line with a "Title" option and a "Color" option. -/
theorem c7_selected_options_witness :
    (({ name := "Color", value := "Red" } : SelectedOption).name ≠ "Title" ∧
     ({ name := "Color", value := "Red" } : SelectedOption).value ≠ "") ∧
    List.count ({ name := "Color", value := "Red" } : SelectedOption)
        (CartLineItem
          { id := "gid-cart-line-2", quantity := some 1,
            isOptimistic := some false,
            merchandise :=
              { quantityAvailable := none,
                selectedOptions :=
                  [{ name := "Title", value := "Default Title" },
                   { name := "Color", value := "Red" }] } }).1
      = List.count ({ name := "Color", value := "Red" } : SelectedOption)
          [{ name := "Title", value := "Default Title" },
           { name := "Color", value := "Red" }] :=
  ⟨⟨by decide, by decide⟩,
   (c7_selected_options
     { id := "gid-cart-line-2", quantity := some 1,
       isOptimistic := some false,
       merchandise :=
         { quantityAvailable := none,
           selectedOptions :=
             [{ name := "Title", value := "Default Title" },
              { name := "Color", value := "Red" }] } }
     { name := "Color", value := "Red" }).2 (by decide) (by decide)⟩

/-- C1 counterexample: an optimistic line with quantity 1 and a known
quantity-available of 5 renders an ENABLED increase control, refuting the
claim that all three controls are disabled whenever the line is
optimistic. -/
theorem c1_counterexample :
    bangBang (mkLine (some 1) (some true) (some 5)).isOptimistic = true ∧
    (CartLineQuantity (some (mkLine (some 1) (some true) (some 5)))
        (mkLine (some 1) (some true) (some 5)).merchandise.quantityAvailable).map
        (fun c => c.increase.disabled)
      = some false := by
  constructor
  · rfl
  · rfl

/-- C1 (amended): for every optimistic cart line with a defined quantity,
the decrease and removal controls are disabled for every quantity and
quantity-available; the increase control is disabled when
quantity-available is absent or zero, but when quantity-available is a
known nonzero value its disabled state is `quantity + 1 > available`,
independent of the optimistic flag. -/
theorem c1_optimistic_disables_controls (line : CartLine) (qa : Option Int)
    (q : Int) (hq : line.quantity = some q)
    (hopt : bangBang line.isOptimistic = true) :
    ∃ c, CartLineQuantity (some line) qa = some c ∧
      c.decrease.disabled = true ∧
      c.remove.disabled = true ∧
      ((qa = none ∨ qa = some 0) → c.increase.disabled = true) ∧
      (∀ a, qa = some a → a ≠ 0 →
        c.increase.disabled = decide (q + 1 > a)) := by
  refine ⟨_, CartLineQuantity_some line qa q hq, ?_, ?_, ?_, ?_⟩
  · simp [CartLineUpdateButton, isDecreaseDisabled, hopt]
  · simp [CartLineRemoveButton, hopt]
  · rintro (rfl | rfl) <;>
      simp [CartLineUpdateButton, isIncreaseDisabled, numTruthy, hopt]
  · rintro a rfl ha
    simp [CartLineUpdateButton, isIncreaseDisabled, numTruthy, ha,
      nextQuantity]

/-- C1 witness: optimistic line, quantity 1, quantity-available 5. -/
theorem c1_optimistic_disables_controls_witness :
    ((mkLine (some 1) (some true) (some 5)).quantity = some 1 ∧
     bangBang (mkLine (some 1) (some true) (some 5)).isOptimistic = true) ∧
    (∃ c, CartLineQuantity (some (mkLine (some 1) (some true) (some 5)))
        (some 5) = some c ∧
      c.decrease.disabled = true ∧
      c.remove.disabled = true ∧
      (((some 5 : Option Int) = none ∨ (some 5 : Option Int) = some 0) →
        c.increase.disabled = true) ∧
      (∀ a, (some 5 : Option Int) = some a → a ≠ 0 →
        c.increase.disabled = decide ((1 : Int) + 1 > a))) :=
  ⟨⟨rfl, rfl⟩, c1_optimistic_disables_controls
    (mkLine (some 1) (some true) (some 5)) (some 5) 1 rfl rfl⟩

/-- C2 counterexample: with a known quantity-available of exactly 0, a
non-optimistic line with quantity 1 has candidate 2 > 0, so the claim's
condition says the increase control is disabled, yet the component
renders it enabled (JS truthiness sends 0 to the optimistic branch). -/
theorem c2_counterexample :
    increaseDisabledSpec 1
        (bangBang (mkLine (some 1) (some false) (some 0)).isOptimistic)
        (some 0) = true ∧
    (CartLineQuantity (some (mkLine (some 1) (some false) (some 0)))
        (some 0)).map (fun c => c.increase.disabled)
      = some false := by
  constructor
  · rfl
  · rfl

/-- C2 (amended): for every cart line with a defined quantity, the
increase control's candidate is `quantity + 1` and its form submits a
lines-update mutation to `/cart` setting this line to the candidate; it
is disabled exactly when (quantity-available is a known NONZERO value and
the candidate exceeds it) or (quantity-available is absent or zero and
the line is optimistic). -/
theorem c2_increase_control (line : CartLine) (qa : Option Int) (q : Int)
    (hq : line.quantity = some q) :
    ∃ c, CartLineQuantity (some line) qa = some c ∧
      c.increase.value = q + 1 ∧
      c.increase.submission =
        { route := "/cart", action := CartAction.LinesUpdate,
          inputs := CartInputs.lines
            [{ id := line.id, quantity := q + 1 }] } ∧
      (c.increase.disabled = true ↔
        ((∃ a, qa = some a ∧ a ≠ 0 ∧ q + 1 > a) ∨
         ((qa = none ∨ qa = some 0) ∧
           bangBang line.isOptimistic = true))) := by
  refine ⟨_, CartLineQuantity_some line qa q hq, ?_, ?_, ?_⟩
  · simp [CartLineUpdateButton, nextQuantity]
  · simp [CartLineUpdateButton, nextQuantity]
  · cases qa with
    | none => simp [CartLineUpdateButton, isIncreaseDisabled, numTruthy]
    | some a =>
      by_cases ha : a = 0
      · subst ha
        simp [CartLineUpdateButton, isIncreaseDisabled, numTruthy]
      · simp [CartLineUpdateButton, isIncreaseDisabled, numTruthy, ha,
          nextQuantity]

/-- C2 witness: quantity 4, quantity-available 5, not optimistic:
candidate 5 does not exceed 5, so the control is enabled. -/
theorem c2_increase_control_witness :
    (mkLine (some 4) (some false) (some 5)).quantity = some 4 ∧
    (∃ c, CartLineQuantity (some (mkLine (some 4) (some false) (some 5)))
        (some 5) = some c ∧
      c.increase.value = 4 + 1 ∧
      c.increase.submission =
        { route := "/cart", action := CartAction.LinesUpdate,
          inputs := CartInputs.lines
            [{ id := (mkLine (some 4) (some false) (some 5)).id,
               quantity := 4 + 1 }] } ∧
      (c.increase.disabled = true ↔
        ((∃ a, (some 5 : Option Int) = some a ∧ a ≠ 0 ∧
            (4 : Int) + 1 > a) ∨
         (((some 5 : Option Int) = none ∨
            (some 5 : Option Int) = some 0) ∧
           bangBang (mkLine (some 4) (some false) (some 5)).isOptimistic
             = true)))) :=
  ⟨rfl, c2_increase_control (mkLine (some 4) (some false) (some 5))
    (some 5) 4 rfl⟩

/-- C4: in the critical phase, a falsy handle parameter — absent, and
likewise the JS-falsy empty string — yields the generic thrown `Error`
before any query is issued; with a truthy handle and the query fulfilled,
a product that does not resolve to a valid identifier yields the 404
`Response`; and any successful payload carries a fully resolved product
(present, nonempty identifier) under a truthy handle — so neither
failure returns partial product data. -/
theorem c4_critical_failures (handle : Option String)
    (query : Except String QueryResult) :
    ((handle = none ∨ handle = some "") → loadCriticalData handle query
      = Except.error
          (LoaderError.genericError "Expected product handle to be defined")) ∧
    (∀ h res, handle = some h → h ≠ "" → query = Except.ok res →
      productResolves res.product = false →
      loadCriticalData handle query
        = Except.error (LoaderError.responseError 404)) ∧
    (∀ payload, loadCriticalData handle query = Except.ok payload →
      ∃ h res, handle = some h ∧ h ≠ "" ∧ query = Except.ok res ∧
        res.product = some payload.product ∧ payload.product.id ≠ "") := by
  refine ⟨?_, ?_, ?_⟩
  · rintro (rfl | rfl) <;> rfl
  · rintro h res rfl hh rfl hres
    simp [loadCriticalData, handleTruthy, hh, hres]
  · intro payload hok
    cases handle with
    | none => simp [loadCriticalData, handleTruthy] at hok
    | some h =>
      by_cases hh : h = ""
      · subst hh
        simp [loadCriticalData, handleTruthy] at hok
      · cases query with
        | error e => simp [loadCriticalData, handleTruthy, hh] at hok
        | ok res =>
          cases hp : res.product with
          | none =>
            simp [loadCriticalData, handleTruthy, hh, hp,
              productResolves] at hok
          | some p =>
            by_cases hid : p.id = ""
            · simp [loadCriticalData, handleTruthy, hh, hp,
                productResolves, hid] at hok
            · have hok' : payload
                  = { product := p,
                      storeDomain := res.shopPrimaryDomainUrl } := by
                simp [loadCriticalData, handleTruthy, hh, hp,
                  productResolves, hid] at hok
                exact hok.symm
              refine ⟨h, res, rfl, hh, rfl, ?_, ?_⟩
              · rw [hok', hp]
              · rw [hok']
                exact hid

/-- C4 witness: a fulfilled query whose product is null, under a present
nonempty handle, produces the 404 error. -/
theorem c4_critical_failures_witness :
    ((some "my-product" : Option String) = some "my-product" ∧
     "my-product" ≠ "" ∧
     (Except.ok { product := none, shopPrimaryDomainUrl := "https://s.example" }
        : Except String QueryResult)
       = Except.ok { product := none,
                     shopPrimaryDomainUrl := "https://s.example" } ∧
     productResolves
       ({ product := none, shopPrimaryDomainUrl := "https://s.example" }
         : QueryResult).product = false) ∧
    loadCriticalData (some "my-product")
        (Except.ok { product := none,
                     shopPrimaryDomainUrl := "https://s.example" })
      = Except.error (LoaderError.responseError 404) :=
  ⟨⟨rfl, by decide, rfl, rfl⟩,
   (c4_critical_failures (some "my-product")
      (Except.ok { product := none,
                   shopPrimaryDomainUrl := "https://s.example" })).2.1
     "my-product"
     { product := none, shopPrimaryDomainUrl := "https://s.example" }
     rfl (by decide) rfl rfl⟩

/-- C5: a rejected recommended-products query is caught at the source —
the returned promise fulfills with a null value and logs the reason
exactly once; the loader's success is independent of the deferred
settlement; and every successful loader payload carries, under the
`recommendedProducts` key, exactly the caught promise that
`loadDeferredData` produced. -/
theorem c5_deferred_never_fails (d : Settlement RecommendedProducts)
    (handle : Option String) (cq : Except String QueryResult) :
    (∀ e, d = Settlement.rejected e →
      loadDeferredData d
        = { recommendedProducts := { settlement := none, log := [e] } }) ∧
    (∀ d', ((loader d handle cq).1).isOk
      = ((loader d' handle cq).1).isOk) ∧
    (∀ payload, (loader d handle cq).1 = Except.ok payload →
      payload.recommendedProducts
        = (loadDeferredData d).recommendedProducts) := by
  refine ⟨?_, ?_, ?_⟩
  · rintro e rfl; rfl
  · intro d'
    cases hc : loadCriticalData handle cq <;>
      simp [loader, hc, Except.isOk, Except.toBool]
  · intro payload hok
    cases hc : loadCriticalData handle cq <;> simp [loader, hc] at hok
    rw [← hok]

/-- C5 witness: a rejected deferred query together with a successful
critical phase. -/
theorem c5_deferred_never_fails_witness :
    ((Settlement.rejected "network down"
        : Settlement RecommendedProducts)
      = Settlement.rejected "network down" ∧
     loadDeferredData
        (Settlement.rejected "network down"
          : Settlement RecommendedProducts)
      = { recommendedProducts := { settlement := none,
                                   log := ["network down"] } }) ∧
     (∀ payload,
        (loader (Settlement.rejected "network down") (some "my-product")
            (Except.ok
              { product := some { id := "gid-1", title := "T",
                                  handle := "my-product" },
                shopPrimaryDomainUrl := "https://s.example" })).1
          = Except.ok payload →
        payload.recommendedProducts
          = (loadDeferredData
              (Settlement.rejected "network down"
                : Settlement RecommendedProducts)).recommendedProducts) :=
  ⟨⟨rfl,
    (c5_deferred_never_fails (Settlement.rejected "network down")
      (some "my-product")
      (Except.ok
        { product := some { id := "gid-1", title := "T",
                            handle := "my-product" },
          shopPrimaryDomainUrl := "https://s.example" })).1
      "network down" rfl⟩,
   (c5_deferred_never_fails (Settlement.rejected "network down")
      (some "my-product")
      (Except.ok
        { product := some { id := "gid-1", title := "T",
                            handle := "my-product" },
          shopPrimaryDomainUrl := "https://s.example" })).2.2⟩

/-- C8: in every run, the recommended-products fetch is issued strictly
before the critical await completes, and the loader's outcome is exactly
the critical phase's outcome mapped to a payload that hands the renderer
the still-pending caught promise of the deferred phase — so only the
critical phase is awaited before responding. -/
theorem c8_two_phase_concurrency (d : Settlement RecommendedProducts)
    (handle : Option String) (cq : Except String QueryResult) :
    List.indexOf LoaderEvent.issueRecommendedQuery (loader d handle cq).2
      < List.indexOf LoaderEvent.awaitCritical (loader d handle cq).2 ∧
    (loader d handle cq).1
      = (loadCriticalData handle cq).map
          (fun c =>
            { recommendedProducts :=
                (loadDeferredData d).recommendedProducts,
              product := c.product, storeDomain := c.storeDomain }) := by
  constructor
  · cases hc : loadCriticalData handle cq <;> cases handle <;>
      simp only [loader, hc, loadDeferredDataEvents,
        loadCriticalDataEvents] <;> decide
  · cases hc : loadCriticalData handle cq <;>
      simp [loader, hc, Except.map]
